import Mathlib

/-!
Shallow embedding of the upublish server core (main.go / the variant file
with index and signal support): path resolution, page cache, template
splitting, index rendering, conditional requests and compression
negotiation. Byte sequences are modelled as lists of characters (all
tokens the code compares against are ASCII).
-/

namespace UPublish

abbrev Bytes := List Char

/-! ### Models of the Go standard-library helpers used by the code -/

/-- ASCII case folding of one character, as Go strings.EqualFold performs
on ASCII input (the only input the code compares: hex fingerprints). -/
def foldChar (c : Char) : Char :=
  if 'A' ≤ c ∧ c ≤ 'Z' then Char.ofNat (c.toNat + 32) else c

/-- Model of Go strings.EqualFold restricted to ASCII case folding. -/
def stringsEqualFold (a b : Bytes) : Bool :=
  a.map foldChar = b.map foldChar

/-- Index of the leftmost occurrence of sep in s, as Go strings.Index /
bytes.Index compute it. -/
def findSub (sep : Bytes) : Bytes → Option Nat
  | [] => if sep.isPrefixOf [] then some 0 else none
  | c :: t =>
    if sep.isPrefixOf (c :: t) then some 0
    else (findSub sep t).map (· + 1)

/-- Model of Go strings.Contains. -/
def stringsContains (s sub : Bytes) : Bool :=
  (findSub sub s).isSome

/-- Fuelled worker for bytes.Split: cut at each leftmost occurrence of sep. -/
def bytesSplitAux (sep : Bytes) : Nat → Bytes → List Bytes
  | 0, s => [s]
  | fuel + 1, s =>
    match findSub sep s with
    | none => [s]
    | some i => s.take i :: bytesSplitAux sep fuel (s.drop (i + sep.length))

/-- Model of Go bytes.Split (for a non-empty separator the fuel is ample). -/
def bytesSplit (s sep : Bytes) : List Bytes :=
  bytesSplitAux sep (s.length + 1) s

/-- Fuelled count of the non-overlapping, leftmost-first occurrences of sep,
mirroring the recursion of bytesSplitAux. -/
def splitCountAux (sep : Bytes) : Nat → Bytes → Nat
  | 0, _ => 0
  | fuel + 1, s =>
    match findSub sep s with
    | none => 0
    | some i => splitCountAux sep fuel (s.drop (i + sep.length)) + 1

/-- Number of non-overlapping occurrences of sep in s (Go strings.Count
semantics, minus one for the empty separator case the code never uses). -/
def splitCount (s sep : Bytes) : Nat :=
  splitCountAux sep (s.length + 1) s

/-- Index of the last slash in s, as Go strings.LastIndex(s, "/")
(none for Go result -1). -/
def lastIndexOfChar (c : Char) : Bytes → Option Nat
  | [] => none
  | x :: xs =>
    match lastIndexOfChar c xs with
    | some i => some (i + 1)
    | none => if x = c then some 0 else none

/-- Model of Go path.Split: split immediately after the final slash. -/
def pathSplit (s : Bytes) : Bytes × Bytes :=
  match lastIndexOfChar '/' s with
  | none => ([], s)
  | some i => (s.take (i + 1), s.drop (i + 1))

/-- The backtracking loop of Go path.Clean for a ".." element: starting at
index w, step left while w > dotdot and out[w] is not a slash. -/
def btLoop (out : Bytes) (dotdot : Nat) : Nat → Nat
  | 0 => 0
  | w + 1 =>
    if dotdot < w + 1 ∧ out[w + 1]? ≠ some '/' then btLoop out dotdot w
    else w + 1

/-- The main loop of Go path.Clean, translated element by element; the fuel
only bounds the recursion (every step consumes input, so length + 1 fuel
is never exhausted). State: remaining input, written output, dotdot mark. -/
def cleanLoopF (rooted : Bool) : Nat → Bytes → Bytes → Nat → Bytes
  | 0, _, out, _ => out
  | _ + 1, [], out, _ => out
  | fuel + 1, c :: rest, out, dotdot =>
    if c = '/' then
      cleanLoopF rooted fuel rest out dotdot
    else if c = '.' ∧ (rest = [] ∨ rest.head? = some '/') then
      cleanLoopF rooted fuel rest out dotdot
    else if c = '.' ∧ rest.head? = some '.' ∧
        (rest.tail = [] ∨ rest.tail.head? = some '/') then
      if dotdot < out.length then
        cleanLoopF rooted fuel rest.tail
          (out.take (btLoop out dotdot (out.length - 1))) dotdot
      else if rooted = false then
        cleanLoopF rooted fuel rest.tail
          ((if 0 < out.length then out ++ ['/'] else out) ++ ['.', '.'])
          (((if 0 < out.length then out ++ ['/'] else out) ++ ['.', '.']).length)
      else
        cleanLoopF rooted fuel rest.tail out dotdot
    else
      cleanLoopF rooted fuel ((c :: rest).dropWhile (fun x => x ≠ '/'))
        ((if (rooted = true ∧ out.length ≠ 1) ∨ (rooted = false ∧ out.length ≠ 0)
            then out ++ ['/'] else out)
          ++ (c :: rest).takeWhile (fun x => x ≠ '/'))
        dotdot

/-- Go path.Clean turns an empty result into a single dot. -/
def cleanResult (out : Bytes) : Bytes :=
  if out = [] then ['.'] else out

/-- Model of Go path.Clean. -/
def pathClean (p : Bytes) : Bytes :=
  if p = [] then ['.']
  else if p.head? = some '/' then
    cleanResult (cleanLoopF true (p.length + 1) p.tail ['/'] 1)
  else
    cleanResult (cleanLoopF false (p.length + 1) p [] 0)

/-- The buffer Go path.Join builds before cleaning: elements separated by
slashes, empty leading elements skipped. -/
def pathJoinBuf (elems : List Bytes) : Bytes :=
  elems.foldl
    (fun buf e =>
      if 0 < buf.length ∨ e ≠ [] then
        (if 0 < buf.length then buf ++ ['/'] else buf) ++ e
      else buf)
    []

/-- Model of Go path.Join. -/
def pathJoin (elems : List Bytes) : Bytes :=
  if (elems.map List.length).sum = 0 then []
  else pathClean (pathJoinBuf elems)

/-! ### Data model -/

/-- A rendered page: content bytes plus the content fingerprint used as
the HTTP entity tag (Page.Hash in the code; produced by the external
renderer). -/
structure Page where
  content : Bytes
  hash : Bytes
  deriving Repr, DecidableEq

/-- One entry of an index descriptor (PageIndex in the code). The date is
abstracted to a number: the code never reads it in the claims at issue. -/
structure PageIndex where
  name : Bytes
  date : Nat
  summary : Bytes
  tags : List Bytes
  deriving Repr, DecidableEq

/-- A render failure: a *PageError carries a status code and message;
any other error value is unclassified. -/
inductive RenderError where
  | classified (statusCode : Nat) (message : Bytes)
  | unclassified
  deriving Repr, DecidableEq

/-- The configuration flags the request path uses: content root, home
directory, default document name, source extension (optPath resolved to
root, optHomeDir, optDefault, optExt). -/
structure Config where
  root : Bytes
  homeDir : Bytes
  defaultDoc : Bytes
  ext : Bytes
  deriving Repr, DecidableEq

/-- The parts of an HTTP request the handler reads. A missing header is
the empty string, as Go Header.Get reports it. -/
structure Request where
  urlPath : Bytes
  ifNoneMatch : Bytes
  acceptEncoding : Bytes
  deriving Repr, DecidableEq

/-- The response the handler produces: status, the headers the code
explicitly sets (none when the code does not set them) and the body
bytes written. -/
structure Response where
  status : Nat := 200
  etag : Option Bytes := none
  contentType : Option Bytes := none
  contentEncoding : Option Bytes := none
  contentLength : Option Nat := none
  body : Bytes := []
  deriving Repr, DecidableEq

/-- The gzip codec, abstracted: a compression function together with the
inverse decompression (compress/gzip of the standard library, which the
code streams prefix, content and suffix into as one unit). -/
structure GzipCodec where
  compress : Bytes → Bytes
  decompress : Bytes → Bytes
  roundtrip : ∀ b, decompress (compress b) = b

/-- The identity codec: a concrete instance of the round-trip interface. -/
def gzId : GzipCodec :=
  { compress := fun b => b, decompress := fun b => b, roundtrip := fun _ => rfl }

/-- The mutable server state the handlers read: template fragments, page
cache and index cache (the global variables tmpl, cache, indexCache). -/
structure ServerState where
  tmpl : Bytes × Bytes
  cache : Bytes → Option Page
  indexCache : Bytes → Option (List PageIndex)

/-- Go map insertion cache[k] = v on the function model of the map. -/
def mapInsert (m : Bytes → Option Page) (k : Bytes) (v : Page) :
    Bytes → Option Page :=
  fun q => if q = k then some v else m q

/-- The literal placeholder token the template is split on. -/
def placeholder : Bytes := "\x7b\x7bcontent\x7d\x7d".data

/-- The content type the code sets on document and error responses. -/
def contentTypeHTML : Bytes := "text/html; charset=UTF-8".data

/-! ### The handlers -/

/-- setupTemplate, the part that validates the file contents: split on the
placeholder; any fragment count other than two is fatal (log.Fatal,
modelled as the error case). -/
def setupTemplate (b : Bytes) : Except Unit (Bytes × Bytes) :=
  match bytesSplit b placeholder with
  | [a, c] => Except.ok (a, c)
  | _ => Except.error ()

/-- setupTemplate's effect on the server state: install the freshly split
fragments and reset the page cache to a new empty map (cache = make(...)).
This is exactly what the signal handler installed by setupSignals runs on
SIGUSR1. -/
def setupTemplateState (b : Bytes) (st : ServerState) :
    Except Unit ServerState :=
  match setupTemplate b with
  | Except.error e => Except.error e
  | Except.ok t =>
      Except.ok { st with tmpl := t, cache := fun _ => none }

/-- The path resolution of renderPage: path.Split the URL, substitute the
home directory for an empty directory part and the default document for an
empty file part, then path.Join with the root. -/
def resolvePath (cfg : Config) (urlPath : Bytes) : Bytes :=
  pathJoin [cfg.root,
    (if (pathSplit urlPath).1 = [] then cfg.homeDir else (pathSplit urlPath).1),
    (if (pathSplit urlPath).2 = [] then cfg.defaultDoc else (pathSplit urlPath).2)]

/-- One name/summary block of the index listing, the body Fprintf writes
per entry. -/
def indexBlock (e : PageIndex) : Bytes :=
  "<h3>".data ++ e.name ++ "</h3>\n<p>".data ++ e.summary ++ "</p>\n".data

/-- The loop of renderIndex over the entries, in slice order. -/
def indexBlocks : List PageIndex → Bytes
  | [] => []
  | e :: es => indexBlock e ++ indexBlocks es

/-- renderIndex: template prefix, the heading Fprintln writes, one block
per entry in list order, template suffix. No header is set and no
conditional or compression logic runs. -/
def renderIndex (tmpl : Bytes × Bytes) (pIdx : List PageIndex) : Response :=
  { status := 200,
    body := tmpl.1 ++ "<h2>Blog</h2>\n".data ++ indexBlocks pIdx ++ tmpl.2 }

/-- write: conditional-request check against the fingerprint, then entity
tag, content type, and gzip-negotiated body emission. -/
def write (gz : GzipCodec) (tmpl : Bytes × Bytes) (r : Request) (page : Page) :
    Response :=
  if stringsEqualFold r.ifNoneMatch page.hash then
    { status := 304, etag := none, contentType := none,
      contentEncoding := none, contentLength := none, body := [] }
  else if stringsContains r.acceptEncoding ("gzip".data) then
    { status := 200, etag := some page.hash, contentType := some contentTypeHTML,
      contentEncoding := some ("gzip".data),
      contentLength := some (gz.compress (tmpl.1 ++ page.content ++ tmpl.2)).length,
      body := gz.compress (tmpl.1 ++ page.content ++ tmpl.2) }
  else
    { status := 200, etag := some page.hash, contentType := some contentTypeHTML,
      contentEncoding := none,
      contentLength := some (tmpl.1.length + page.content.length + tmpl.2.length),
      body := tmpl.1 ++ page.content ++ tmpl.2 }

/-- The fixed error paragraph writeError formats the message into. -/
def errFmt (msg : Bytes) : Bytes :=
  "<h2>Oops! We\x27ve hit a bit of a problem...</h2><p>".data ++ msg ++ "</p>".data

/-- writeError: content type, template-wrapped paragraph; status and message
from the *PageError when the error is classified, 500 and a fixed message
otherwise. Never compressed, never cached. -/
def writeError (tmpl : Bytes × Bytes) (e : RenderError) : Response :=
  match e with
  | RenderError.classified code msg =>
      { status := code, etag := none, contentType := some contentTypeHTML,
        contentEncoding := none, contentLength := none,
        body := tmpl.1 ++ errFmt msg ++ tmpl.2 }
  | RenderError.unclassified =>
      { status := 500, etag := none, contentType := some contentTypeHTML,
        contentEncoding := none, contentLength := none,
        body := tmpl.1 ++ errFmt ("Page not available".data) ++ tmpl.2 }

/-- renderPage: resolve the URL, try the index cache on candidate + ".json",
otherwise append "." + ext and take the page-cache / renderer path; a
successful render is stored in the cache before the response is written,
a failed one is not. The renderer GetPage is the parameter render. -/
def renderPage (gz : GzipCodec) (cfg : Config)
    (render : Bytes → Except RenderError Page)
    (st : ServerState) (r : Request) : Response × ServerState :=
  match st.indexCache (resolvePath cfg r.urlPath ++ ".json".data) with
  | some pIdx => (renderIndex st.tmpl pIdx, st)
  | none =>
    match st.cache (resolvePath cfg r.urlPath ++ ".".data ++ cfg.ext) with
    | some page => (write gz st.tmpl r page, st)
    | none =>
      match render (resolvePath cfg r.urlPath ++ ".".data ++ cfg.ext) with
      | Except.error e => (writeError st.tmpl e, st)
      | Except.ok page =>
          (write gz st.tmpl r page,
           { st with
              cache := mapInsert st.cache (resolvePath cfg r.urlPath ++ ".".data ++ cfg.ext) page })

/-! ### Lemmas about the split model -/

/-- The split always produces one more fragment than there are
(non-overlapping, leftmost-first) occurrences of the separator. -/
theorem length_bytesSplitAux (sep : Bytes) :
    ∀ f s, (bytesSplitAux sep f s).length = splitCountAux sep f s + 1 := by
  intro f
  induction f with
  | zero => intro s; rfl
  | succ f ih =>
    intro s
    simp only [bytesSplitAux, splitCountAux]
    cases h : findSub sep s with
    | none => rfl
    | some i => simp [ih]

/-- A singleton split result is the whole input. -/
theorem bytesSplitAux_singleton (sep : Bytes) :
    ∀ f s x, bytesSplitAux sep f s = [x] → x = s := by
  intro f
  cases f with
  | zero =>
    intro s x h
    simp only [bytesSplitAux] at h
    injection h with h1 _
    exact h1.symm
  | succ f =>
    intro s x h
    simp only [bytesSplitAux] at h
    cases hf : findSub sep s with
    | none =>
      rw [hf] at h
      injection h with h1 _
      exact h1.symm
    | some i =>
      rw [hf] at h
      have hl := congrArg List.length h
      rw [List.length_cons, length_bytesSplitAux] at hl
      simp at hl

/-- A found occurrence decomposes the string around the separator. -/
theorem findSub_decomp (sep : Bytes) :
    ∀ s i, findSub sep s = some i →
      s = s.take i ++ sep ++ s.drop (i + sep.length) := by
  intro s
  induction s with
  | nil =>
    intro i h
    simp only [findSub] at h
    by_cases hp : sep.isPrefixOf ([] : Bytes)
    · rw [if_pos hp] at h
      injection h with h0
      subst h0
      have hsep : sep = [] := by
        cases sep with
        | nil => rfl
        | cons a t => simp [List.isPrefixOf] at hp
      simp [hsep]
    · rw [if_neg hp] at h
      cases h
  | cons c t ih =>
    intro i h
    simp only [findSub] at h
    by_cases hp : sep.isPrefixOf (c :: t)
    · rw [if_pos hp] at h
      injection h with h0
      subst h0
      obtain ⟨u, hu⟩ := (List.isPrefixOf_iff_prefix).1 hp
      calc c :: t = sep ++ u := hu.symm
        _ = (c :: t).take 0 ++ sep ++ (c :: t).drop (0 + sep.length) := by
            rw [← hu]
            simp [List.drop_left]
    · rw [if_neg hp] at h
      cases hft : findSub sep t with
      | none => rw [hft] at h; cases h
      | some j =>
        rw [hft] at h
        simp only [Option.map] at h
        injection h with h0
        subst h0
        have ht := ih j hft
        calc c :: t = c :: (t.take j ++ sep ++ t.drop (j + sep.length)) := by
              rw [← ht]
          _ = (c :: t).take (j + 1) ++ sep ++ (c :: t).drop (j + 1 + sep.length) := by
              rw [List.take_succ_cons]
              rw [Nat.add_right_comm j 1 sep.length, List.drop_succ_cons]
              simp

/-- No occurrence is found exactly when the separator occurs nowhere. -/
theorem findSub_none_no_occ (sep : Bytes) :
    ∀ s, findSub sep s = none → ∀ x y, s ≠ x ++ sep ++ y := by
  intro s
  induction s with
  | nil =>
    intro h x y hxy
    simp only [findSub] at h
    by_cases hp : sep.isPrefixOf ([] : Bytes)
    · rw [if_pos hp] at h; cases h
    · have h0 : (x ++ sep) ++ y = [] := hxy.symm
      have hsep : sep = [] :=
        (List.append_eq_nil.1 (List.append_eq_nil.1 h0).1).2
      subst hsep
      simp [List.isPrefixOf] at hp
  | cons c t ih =>
    intro h x y hxy
    simp only [findSub] at h
    by_cases hp : sep.isPrefixOf (c :: t)
    · rw [if_pos hp] at h; cases h
    · rw [if_neg hp] at h
      cases hft : findSub sep t with
      | some j => rw [hft] at h; simp at h
      | none =>
        cases x with
        | nil =>
          apply hp
          rw [List.isPrefixOf_iff_prefix]
          exact ⟨y, by simpa using hxy.symm⟩
        | cons a x2 =>
          have hxy2 : c :: t = a :: (x2 ++ sep ++ y) := by simpa using hxy
          injection hxy2 with _ h2
          exact ih hft x2 y h2

/-- Template loading succeeds exactly when the placeholder occurs once. -/
theorem setupTemplate_ok_iff (b : Bytes) :
    (∃ t, setupTemplate b = Except.ok t) ↔ splitCount b placeholder = 1 := by
  have hlen : (bytesSplit b placeholder).length = splitCount b placeholder + 1 :=
    length_bytesSplitAux placeholder (b.length + 1) b
  constructor
  · rintro ⟨t, ht⟩
    unfold setupTemplate at ht
    cases hsp : bytesSplit b placeholder with
    | nil => rw [hsp] at ht; cases ht
    | cons a rest =>
      cases rest with
      | nil => rw [hsp] at ht; cases ht
      | cons c rest2 =>
        cases rest2 with
        | nil =>
          rw [hsp] at hlen
          simpa using hlen.symm
        | cons d l => rw [hsp] at ht; cases ht
  · intro hc
    rw [hc] at hlen
    obtain ⟨a, c, hac⟩ := List.length_eq_two.1 hlen
    exact ⟨(a, c), by unfold setupTemplate; rw [hac]⟩

/-- A successful template load splits the file around the single
placeholder occurrence. -/
theorem setupTemplate_decomp (b pre suf : Bytes)
    (h : setupTemplate b = Except.ok (pre, suf)) :
    b = pre ++ placeholder ++ suf := by
  unfold setupTemplate at h
  cases hsp : bytesSplit b placeholder with
  | nil => rw [hsp] at h; cases h
  | cons a rest =>
    cases rest with
    | nil => rw [hsp] at h; cases h
    | cons c rest2 =>
      cases rest2 with
      | cons d l => rw [hsp] at h; cases h
      | nil =>
        rw [hsp] at h
        injection h with h1
        have ha : a = pre := congrArg Prod.fst h1
        have hc : c = suf := congrArg Prod.snd h1
        subst ha
        subst hc
        simp only [bytesSplit, bytesSplitAux] at hsp
        cases hf : findSub placeholder b with
        | none =>
          rw [hf] at hsp
          simp at hsp
        | some i =>
          rw [hf] at hsp
          injection hsp with h2 h3
          have hsuf : c = b.drop (i + placeholder.length) :=
            bytesSplitAux_singleton placeholder b.length
              (b.drop (i + placeholder.length)) c h3
          rw [← h2, hsuf]
          exact findSub_decomp placeholder b i hf

/-- Zero occurrences in the split-count sense means the token occurs
nowhere in the byte string. -/
theorem splitCount_zero_iff (b sep : Bytes) :
    splitCount b sep = 0 ↔ ¬ ∃ x y, b = x ++ sep ++ y := by
  unfold splitCount splitCountAux
  cases hf : findSub sep b with
  | none =>
    simp only [hf]
    constructor
    · rintro _ ⟨x, y, hxy⟩
      exact findSub_none_no_occ sep b hf x y hxy
    · intro _; trivial
  | some i =>
    simp only [hf]
    constructor
    · intro h; cases h
    · intro hno
      exact absurd
        ⟨b.take i, b.drop (i + sep.length), findSub_decomp sep b i hf⟩ hno

/-- C7: template loading succeeds (and the process serves) exactly when
splitting the template on the placeholder token yields two fragments,
i.e. the placeholder occurs exactly once; a single occurrence yields the
prefix/suffix pair the file decomposes into, and a zero count means the
token occurs nowhere (two-plus occurrences likewise fail the length-two
test, aborting startup rather than degrading). -/
theorem c7_template_placeholder_split (b : Bytes) :
    ((∃ t, setupTemplate b = Except.ok t) ↔ splitCount b placeholder = 1) ∧
    (∀ pre suf, setupTemplate b = Except.ok (pre, suf) →
      b = pre ++ placeholder ++ suf) ∧
    (splitCount b placeholder = 0 ↔ ¬ ∃ x y, b = x ++ placeholder ++ y) :=
  ⟨setupTemplate_ok_iff b,
   fun pre suf h => setupTemplate_decomp b pre suf h,
   splitCount_zero_iff b placeholder⟩

/-- Witness for C7 at a concrete one-occurrence template. -/
theorem c7_template_placeholder_split_witness :
    "A\x7b\x7bcontent\x7d\x7dB".data = "A".data ++ placeholder ++ "B".data :=
  (c7_template_placeholder_split ("A\x7b\x7bcontent\x7d\x7dB".data)).2.1
    ("A".data) ("B".data) (by rfl)

/-! ### Concrete instances used to exercise the theorems -/

/-- A concrete configuration: root /r, home directory blog, default
document index, extension md. -/
def cfg0 : Config :=
  { root := "/r".data, homeDir := "blog".data,
    defaultDoc := "index".data, ext := "md".data }

/-- A concrete template fragment pair. -/
def tmpl0 : Bytes × Bytes := ("<html>".data, "</html>".data)

/-- A concrete rendered page. -/
def page0 : Page := { content := "Hello".data, hash := "abc123".data }

/-- A concrete server state: template installed, both caches empty. -/
def st0 : ServerState :=
  { tmpl := tmpl0, cache := fun _ => none, indexCache := fun _ => none }

/-- A renderer that always succeeds with page0. -/
def render0 : Bytes → Except RenderError Page := fun _ => Except.ok page0

/-- A request for / with no headers. -/
def reqPlain : Request :=
  { urlPath := "/".data, ifNoneMatch := [], acceptEncoding := [] }

/-- A request for / whose If-None-Match is page0's fingerprint in upper
case. -/
def reqMatch : Request :=
  { urlPath := "/".data, ifNoneMatch := "ABC123".data, acceptEncoding := [] }

/-- A request for / accepting gzip. -/
def reqGzip : Request :=
  { urlPath := "/".data, ifNoneMatch := [],
    acceptEncoding := "deflate, gzip".data }

/-! ### The claims about response composition -/

/-- C3: when the If-None-Match header case-insensitively equals the page
fingerprint the response is 304 with no body and no headers set; when it
differs the fingerprint becomes the entity tag of a 200 response. -/
theorem c3_if_none_match (gz : GzipCodec) (tmpl : Bytes × Bytes)
    (r : Request) (page : Page) :
    (stringsEqualFold r.ifNoneMatch page.hash = true →
      write gz tmpl r page =
        { status := 304, etag := none, contentType := none,
          contentEncoding := none, contentLength := none, body := [] }) ∧
    (stringsEqualFold r.ifNoneMatch page.hash = false →
      (write gz tmpl r page).etag = some page.hash ∧
      (write gz tmpl r page).status = 200 ∧
      (write gz tmpl r page).contentType = some contentTypeHTML) := by
  constructor
  · intro h
    simp [write, h]
  · intro h
    by_cases hg : stringsContains r.acceptEncoding ("gzip".data)
    · simp [write, h, hg]
    · simp [write, h, hg]

/-- Witness for C3: a matching (differently-cased) entity tag yields 304,
a missing header yields a tagged 200. -/
theorem c3_if_none_match_witness :
    write gzId tmpl0 reqMatch page0 =
      { status := 304, etag := none, contentType := none,
        contentEncoding := none, contentLength := none, body := [] } ∧
    (write gzId tmpl0 reqPlain page0).etag = some page0.hash :=
  ⟨(c3_if_none_match gzId tmpl0 reqMatch page0).1 (by decide),
   ((c3_if_none_match gzId tmpl0 reqPlain page0).2 (by decide)).1⟩

/-- C4: outside the 304 case, the body is gzip-compressed exactly when the
accepted encodings contain gzip; the compressed body is the compression of
prefix ++ content ++ suffix as one unit and decompresses to exactly the
uncompressed body; the content length is the compressed size in the gzip
case and the combined length of the three segments otherwise. -/
theorem c4_gzip_negotiation (gz : GzipCodec) (tmpl : Bytes × Bytes)
    (r : Request) (page : Page)
    (hnm : stringsEqualFold r.ifNoneMatch page.hash = false) :
    (stringsContains r.acceptEncoding ("gzip".data) = true →
      (write gz tmpl r page).contentEncoding = some ("gzip".data) ∧
      (write gz tmpl r page).body =
        gz.compress (tmpl.1 ++ page.content ++ tmpl.2) ∧
      gz.decompress ((write gz tmpl r page).body) =
        tmpl.1 ++ page.content ++ tmpl.2 ∧
      (write gz tmpl r page).contentLength =
        some (gz.compress (tmpl.1 ++ page.content ++ tmpl.2)).length) ∧
    (stringsContains r.acceptEncoding ("gzip".data) = false →
      (write gz tmpl r page).contentEncoding = none ∧
      (write gz tmpl r page).body = tmpl.1 ++ page.content ++ tmpl.2 ∧
      (write gz tmpl r page).contentLength =
        some (tmpl.1.length + page.content.length + tmpl.2.length)) := by
  constructor
  · intro hg
    simp [write, hnm, hg, gz.roundtrip]
  · intro hg
    simp [write, hnm, hg]

/-- Witness for C4: with the identity codec, a gzip-accepting request gets
the marked compressed body and a plain request the three segments. -/
theorem c4_gzip_negotiation_witness :
    (write gzId tmpl0 reqGzip page0).contentEncoding = some ("gzip".data) ∧
    (write gzId tmpl0 reqPlain page0).body =
      tmpl0.1 ++ page0.content ++ tmpl0.2 :=
  ⟨((c4_gzip_negotiation gzId tmpl0 reqGzip page0 (by decide)).1
      (by decide)).1,
   ((c4_gzip_negotiation gzId tmpl0 reqPlain page0 (by decide)).2
      (by decide)).2.1⟩

/-- The per-entry loop of renderIndex is the concatenation of the blocks
in list order. -/
theorem indexBlocks_eq_join (l : List PageIndex) :
    indexBlocks l = (l.map indexBlock).flatten := by
  induction l with
  | nil => rfl
  | cons e es ih => simp [indexBlocks, ih]

/-- C9: the index listing is template prefix, the heading, one
name/summary block per entry in descriptor list order, template suffix;
for a two-entry descriptor both entries appear in that exact order, each
in its own h3/p pair. -/
theorem c9_index_listing_order (tmpl : Bytes × Bytes)
    (pIdx : List PageIndex) :
    renderIndex tmpl pIdx =
      { status := 200, etag := none, contentType := none,
        contentEncoding := none, contentLength := none,
        body := tmpl.1 ++ "<h2>Blog</h2>\n".data ++
          (pIdx.map indexBlock).flatten ++ tmpl.2 } ∧
    (∀ e1 e2, renderIndex tmpl [e1, e2] =
      { status := 200, etag := none, contentType := none,
        contentEncoding := none, contentLength := none,
        body := tmpl.1 ++ "<h2>Blog</h2>\n".data ++
          ("<h3>".data ++ e1.name ++ "</h3>\n<p>".data ++
            e1.summary ++ "</p>\n".data) ++
          ("<h3>".data ++ e2.name ++ "</h3>\n<p>".data ++
            e2.summary ++ "</p>\n".data) ++ tmpl.2 }) := by
  constructor
  · simp [renderIndex, indexBlocks_eq_join]
  · intro e1 e2
    simp [renderIndex, indexBlocks, indexBlock]

/-! ### The claims about the request pipeline -/

/-- C1: for a document path absent from the page cache, a successful first
request renders and stores the page; an identical second request returns
the byte-identical response from the cache, independent of the renderer
(any renderer render2 gives the same output, so the renderer is not
consulted again), and leaves the state unchanged. -/
theorem c1_first_request_renders_then_caches (gz : GzipCodec) (cfg : Config)
    (render render2 : Bytes → Except RenderError Page) (st : ServerState)
    (r : Request) (page : Page) (d : Bytes)
    (hd : d = resolvePath cfg r.urlPath ++ ".".data ++ cfg.ext)
    (hidx : st.indexCache (resolvePath cfg r.urlPath ++ ".json".data) = none)
    (hmiss : st.cache d = none)
    (hok : render d = Except.ok page) :
    (renderPage gz cfg render st r).2.cache d = some page ∧
    (renderPage gz cfg render st r).1 = write gz st.tmpl r page ∧
    renderPage gz cfg render2 (renderPage gz cfg render st r).2 r =
      renderPage gz cfg render st r := by
  subst hd
  have h1 : renderPage gz cfg render st r =
      (write gz st.tmpl r page,
       { st with cache := mapInsert st.cache (resolvePath cfg r.urlPath ++ ".".data ++ cfg.ext) page }) := by
    unfold renderPage
    rw [hidx, hmiss, hok]
  refine ⟨?_, ?_, ?_⟩
  · rw [h1]
    simp [mapInsert]
  · rw [h1]
  · rw [h1]
    unfold renderPage
    simp [hidx, mapInsert]

/-- C5: resolution first consults the index cache at candidate + ".json";
on a hit the index listing is rendered with unchanged state and the
renderer and page cache are never consulted (any renderer gives the same
result); only on a miss is "." + ext appended and the page-cache /
renderer path taken exactly. -/
theorem c5_resolution_order (gz : GzipCodec) (cfg : Config)
    (render : Bytes → Except RenderError Page) (st : ServerState)
    (r : Request) :
    (∀ pIdx,
      st.indexCache (resolvePath cfg r.urlPath ++ ".json".data) = some pIdx →
      ∀ render2, renderPage gz cfg render2 st r =
        (renderIndex st.tmpl pIdx, st)) ∧
    (st.indexCache (resolvePath cfg r.urlPath ++ ".json".data) = none →
      renderPage gz cfg render st r =
        (match st.cache (resolvePath cfg r.urlPath ++ ".".data ++ cfg.ext) with
         | some page => (write gz st.tmpl r page, st)
         | none =>
           match render (resolvePath cfg r.urlPath ++ ".".data ++ cfg.ext) with
           | Except.error e => (writeError st.tmpl e, st)
           | Except.ok page =>
               (write gz st.tmpl r page,
                { st with cache := mapInsert st.cache (resolvePath cfg r.urlPath ++ ".".data ++ cfg.ext) page }))) := by
  constructor
  · intro pIdx hpi render2
    unfold renderPage
    rw [hpi]
  · intro hni
    unfold renderPage
    rw [hni]

/-- C8: on a render failure the error response is written and the cache is
unchanged (the state returned is the input state); a classified error
yields exactly its status code and a template-wrapped paragraph with its
message, an unclassified one a 500 with the fixed message; the error
response carries no compression header; and because nothing was cached, a
subsequent request for the same path goes to the renderer again. -/
theorem c8_render_error_not_cached (gz : GzipCodec) (cfg : Config)
    (render render2 : Bytes → Except RenderError Page) (st : ServerState)
    (r : Request) (e : RenderError) (page2 : Page) (d : Bytes)
    (hd : d = resolvePath cfg r.urlPath ++ ".".data ++ cfg.ext)
    (hidx : st.indexCache (resolvePath cfg r.urlPath ++ ".json".data) = none)
    (hmiss : st.cache d = none)
    (herr : render d = Except.error e) :
    renderPage gz cfg render st r = (writeError st.tmpl e, st) ∧
    (writeError st.tmpl e).contentEncoding = none ∧
    (∀ code msg, e = RenderError.classified code msg →
      (writeError st.tmpl e).status = code ∧
      (writeError st.tmpl e).body = st.tmpl.1 ++ errFmt msg ++ st.tmpl.2) ∧
    (e = RenderError.unclassified →
      (writeError st.tmpl e).status = 500 ∧
      (writeError st.tmpl e).body =
        st.tmpl.1 ++ errFmt ("Page not available".data) ++ st.tmpl.2) ∧
    (render2 d = Except.ok page2 →
      renderPage gz cfg render2 st r =
        (write gz st.tmpl r page2,
         { st with cache := mapInsert st.cache d page2 })) := by
  subst hd
  refine ⟨?_, ?_, ?_, ?_, ?_⟩
  · unfold renderPage
    rw [hidx, hmiss, herr]
  · cases e <;> rfl
  · intro code msg hcm
    subst hcm
    exact ⟨rfl, rfl⟩
  · intro hu
    subst hu
    exact ⟨rfl, rfl⟩
  · intro hok2
    unfold renderPage
    rw [hidx, hmiss, hok2]

/-- C10: a request that resolves to an index listing bypasses the document
response machinery entirely: no entity tag, content type, content length
or compression header is set, the If-None-Match and Accept-Encoding
headers are ignored (the response is the same for every header
combination, never 304), and the body is the uncompressed listing. -/
theorem c10_index_bypasses_protocol (gz : GzipCodec) (cfg : Config)
    (render : Bytes → Except RenderError Page) (st : ServerState)
    (u inm ae : Bytes) (pIdx : List PageIndex)
    (hidx : st.indexCache (resolvePath cfg u ++ ".json".data) = some pIdx) :
    (renderPage gz cfg render st
        { urlPath := u, ifNoneMatch := inm, acceptEncoding := ae }).1 =
      renderIndex st.tmpl pIdx ∧
    (renderIndex st.tmpl pIdx).etag = none ∧
    (renderIndex st.tmpl pIdx).contentType = none ∧
    (renderIndex st.tmpl pIdx).contentLength = none ∧
    (renderIndex st.tmpl pIdx).contentEncoding = none ∧
    (renderIndex st.tmpl pIdx).status = 200 ∧
    (renderIndex st.tmpl pIdx).body =
      st.tmpl.1 ++ "<h2>Blog</h2>\n".data ++ indexBlocks pIdx ++ st.tmpl.2 := by
  refine ⟨?_, rfl, rfl, rfl, rfl, rfl, rfl⟩
  unfold renderPage
  simp [hidx]

/-- C6: on the reload signal the template fragments are re-loaded and the
page cache replaced by an empty one: after a successful reload the state
holds the new fragments, the index cache is untouched, every cache lookup
misses (also for paths cached before the signal), and the next request for
a document path re-renders it and wraps the response in the newly loaded
fragments. -/
theorem c6_reload_template_then_clear_cache (st : ServerState) (nb : Bytes)
    (t : Bytes × Bytes) (hload : setupTemplate nb = Except.ok t) :
    ∃ st2, setupTemplateState nb st = Except.ok st2 ∧
      st2.tmpl = t ∧
      st2.indexCache = st.indexCache ∧
      (∀ p, st2.cache p = none) ∧
      (∀ gz cfg render r page,
        st.indexCache (resolvePath cfg r.urlPath ++ ".json".data) = none →
        render (resolvePath cfg r.urlPath ++ ".".data ++ cfg.ext) =
          Except.ok page →
        (renderPage gz cfg render st2 r).1 = write gz t r page ∧
        (renderPage gz cfg render st2 r).2.cache
          (resolvePath cfg r.urlPath ++ ".".data ++ cfg.ext) = some page) := by
  refine ⟨{ st with tmpl := t, cache := fun _ => none }, ?_, rfl, rfl,
    fun _ => rfl, ?_⟩
  · unfold setupTemplateState
    rw [hload]
  · intro gz cfg render r page hidx hok
    constructor
    · unfold renderPage
      simp only [hidx]
      rw [hok]
    · unfold renderPage
      simp only [hidx]
      rw [hok]
      simp [mapInsert]

/-- C2 counterexample: with home directory blog and default document
index under root /r, requesting / resolves to the source path
/r/index.md, not /r/blog/index.md as the claim states: Go path.Split
gives "/" (not the empty string) as the directory part of "/", so the
home-directory substitution does not fire. -/
theorem c2_home_directory_counterexample :
    resolvePath cfg0 ("/".data) ++ ".".data ++ cfg0.ext = "/r/index.md".data ∧
    resolvePath cfg0 ("/".data) ++ ".".data ++ cfg0.ext ≠
      "/r/blog/index.md".data := by
  constructor
  · decide
  · decide

/-- C2 (amended): an empty directory part is replaced by the home
directory and an empty file part by the default document, but the
directory part of "/" is "/" rather than empty, so requesting / resolves
to root/index.ext; only a URL path with no slash at all has an empty
directory part, and the empty URL path resolves to
root/home/default.ext. -/
theorem c2_home_directory_resolution (cfg : Config) (u : Bytes)
    (hdir : (pathSplit u).1 = []) (hfile : (pathSplit u).2 = []) :
    resolvePath cfg u = pathJoin [cfg.root, cfg.homeDir, cfg.defaultDoc] ∧
    resolvePath cfg0 ("/".data) = "/r/index".data ∧
    resolvePath cfg0 ([]) = "/r/blog/index".data := by
  refine ⟨?_, by decide, by decide⟩
  unfold resolvePath
  rw [hdir, hfile]
  simp

/-- Witness for C2 (amended) at the empty URL path. -/
theorem c2_home_directory_resolution_witness :
    resolvePath cfg0 ([]) =
      pathJoin [cfg0.root, cfg0.homeDir, cfg0.defaultDoc] :=
  (c2_home_directory_resolution cfg0 ([]) (by decide) (by decide)).1

/-! ### Remaining concrete instances and witnesses -/

/-- A renderer that always fails with a classified 404. -/
def renderErr : Bytes → Except RenderError Page :=
  fun _ => Except.error (RenderError.classified 404 ("missing".data))

/-- A concrete index entry. -/
def entryA : PageIndex :=
  { name := "Post A".data, date := 0, summary := "S1".data, tags := [] }

/-- A second concrete index entry. -/
def entryB : PageIndex :=
  { name := "Post B".data, date := 0, summary := "S2".data, tags := [] }

/-- A server state holding a two-entry index descriptor at the path the
request for / resolves to. -/
def stIdx : ServerState :=
  { tmpl := tmpl0, cache := fun _ => none,
    indexCache := fun k =>
      if k = "/r/index.json".data then some [entryA, entryB] else none }

/-- Witness for C1: the first request for / caches the rendered page at
/r/index.md. -/
theorem c1_first_request_renders_then_caches_witness :
    (renderPage gzId cfg0 render0 st0 reqPlain).2.cache
      ("/r/index.md".data) = some page0 :=
  (c1_first_request_renders_then_caches gzId cfg0 render0 render0 st0
    reqPlain page0 ("/r/index.md".data) (by decide) rfl rfl rfl).1

/-- Witness for C5: the index hit at /r/index.json renders the listing and
leaves the state unchanged. -/
theorem c5_resolution_order_witness :
    renderPage gzId cfg0 render0 stIdx reqPlain =
      (renderIndex stIdx.tmpl [entryA, entryB], stIdx) :=
  (c5_resolution_order gzId cfg0 render0 stIdx reqPlain).1
    [entryA, entryB] (by decide) render0

/-- Witness for C8: a classified 404 render failure leaves the state
unchanged and surfaces its status code. -/
theorem c8_render_error_not_cached_witness :
    renderPage gzId cfg0 renderErr st0 reqPlain =
      (writeError st0.tmpl (RenderError.classified 404 ("missing".data)), st0) ∧
    (writeError st0.tmpl
      (RenderError.classified 404 ("missing".data))).status = 404 :=
  ⟨(c8_render_error_not_cached gzId cfg0 renderErr render0 st0 reqPlain
      (RenderError.classified 404 ("missing".data)) page0
      ("/r/index.md".data) (by decide) rfl rfl rfl).1,
   ((c8_render_error_not_cached gzId cfg0 renderErr render0 st0 reqPlain
      (RenderError.classified 404 ("missing".data)) page0
      ("/r/index.md".data) (by decide) rfl rfl rfl).2.2.1
      404 ("missing".data) rfl).1⟩

/-- Witness for C10: the index response ignores a stale entity tag and a
gzip accept header. -/
theorem c10_index_bypasses_protocol_witness :
    (renderPage gzId cfg0 render0 stIdx
      { urlPath := "/".data, ifNoneMatch := "x".data, acceptEncoding := "gzip".data }).1 =
      renderIndex stIdx.tmpl [entryA, entryB] :=
  (c10_index_bypasses_protocol gzId cfg0 render0 stIdx ("/".data)
    ("x".data) ("gzip".data) [entryA, entryB] (by decide)).1

/-- Witness for C6: reloading with a fresh one-placeholder template
succeeds and installs its fragments. -/
theorem c6_reload_template_then_clear_cache_witness :
    ∃ st2, setupTemplateState ("A\x7b\x7bcontent\x7d\x7dB".data) st0 =
        Except.ok st2 ∧
      st2.tmpl = ("A".data, "B".data) ∧ (∀ p, st2.cache p = none) :=
  (c6_reload_template_then_clear_cache st0 ("A\x7b\x7bcontent\x7d\x7dB".data)
      (("A".data, "B".data)) (by rfl)).elim
    (fun st2 h => ⟨st2, h.1, h.2.1, h.2.2.2.1⟩)

end UPublish
